import Mathlib

set_option linter.constructorNameAsVariable false

/-!
Verification of the numba extension shim for `clifford.MultiVector`
(`src/clifford/numba/_multivector.py`), as a shallow embedding.

The shim registers with the JIT framework:
  * a compiled type `MultiVectorType`, keyed by the numpy dtype of the
    coefficient array;
  * a two-field struct model (`layout`, `value`);
  * a typer and a lowering for calling `MultiVector(layout, value)` inside
    compiled code;
  * unboxing (host object to struct) and boxing (struct to host object);
  * attribute wrappers exposing `.value` and `.layout`.

Host-side code (`clifford._multivector.MultiVector`, `clifford.numba._layout.LayoutType`)
is not part of this fragment; where its behaviour decides a property it is
modelled from the specification, and the definition says so.
-/

namespace CliffordNumba

/-- Finite universe of numpy scalar dtypes, standing for `np.dtype` values. -/
inductive NPDtype
  | int8
  | int16
  | int32
  | int64
  | float32
  | float64
  | complex64
  | complex128
deriving DecidableEq, Repr, Inhabited

/-- Numba scalar types, the images of numpy dtypes under `numba.from_dtype`. -/
inductive NumbaScalar
  | int8
  | int16
  | int32
  | int64
  | float32
  | float64
  | complex64
  | complex128
deriving DecidableEq, Repr, Inhabited

/-- Embedding of `numba.from_dtype`: numpy dtype to numba scalar type. -/
def from_dtype : NPDtype → NumbaScalar
  | .int8 => .int8
  | .int16 => .int16
  | .int32 => .int32
  | .int64 => .int64
  | .float32 => .float32
  | .float64 => .float64
  | .complex64 => .complex64
  | .complex128 => .complex128

/-- Embedding of `numpy_support.as_dtype`: numba scalar type back to numpy dtype. -/
def as_dtype : NumbaScalar → NPDtype
  | .int8 => .int8
  | .int16 => .int16
  | .int32 => .int32
  | .int64 => .int64
  | .float32 => .float32
  | .float64 => .float64
  | .complex64 => .complex64
  | .complex128 => .complex128

/-- Embedding of `repr` on a numba scalar type, as used in the
`'MultiVector[\x7b!r\x7d]'.format(...)` call building the type name. -/
def NumbaScalar.pyrepr : NumbaScalar → String
  | .int8 => "int8"
  | .int16 => "int16"
  | .int32 => "int32"
  | .int64 => "int64"
  | .float32 => "float32"
  | .float64 => "float64"
  | .complex64 => "complex64"
  | .complex128 => "complex128"

/-- The universe of numba frontend types the typer can see.
`layout` is the opaque algebra-description type: modelled from the spec,
`LayoutType` lives in `clifford/numba/_layout.py` which is outside this
fragment, and the spec says the algebra-description reference is treated as
a single opaque capability type regardless of the concrete algebra.
`array e n` is `types.Array(e, n, ...)`; `scalar` and `pyobject` stand for
the remaining frontend types a call site could supply. -/
inductive NumbaType
  | layout
  | array (elem : NumbaScalar) (ndim : Nat)
  | scalar (s : NumbaScalar)
  | pyobject
deriving DecidableEq, Repr

/-- Embedding of the compiled type `MultiVectorType(types.Type)`.
Its only state is the numpy dtype stored by `__init__`. -/
structure MultiVectorType where
  dtype : NPDtype
deriving DecidableEq, Repr

/-- The `name` passed to `types.Type.__init__`:
`'MultiVector[\x7b!r\x7d]'.format(numba.from_dtype(dtype))`. -/
def MultiVectorType.name (t : MultiVectorType) : String :=
  "MultiVector[" ++ (from_dtype t.dtype).pyrepr ++ "]"

/-- The `key` property: exactly the stored dtype. -/
def MultiVectorType.key (t : MultiVectorType) : NPDtype :=
  t.dtype

/-- The `value_type` property: `numba.from_dtype(self.dtype)[:]`, a
one-dimensional array of the scalar type derived from the dtype. -/
def MultiVectorType.value_type (t : MultiVectorType) : NumbaType :=
  NumbaType.array (from_dtype t.dtype) 1

/-- The `layout_type` property: `LayoutType()`, the single opaque
algebra-description type. -/
def MultiVectorType.layout_type (_ : MultiVectorType) : NumbaType :=
  NumbaType.layout

/-- Numba type equality for `MultiVectorType` instances: the framework
compares two types of the same class by their `key` properties, which the
shim overrides to the dtype. -/
def MultiVectorType.teq (a b : MultiVectorType) : Bool :=
  a.key = b.key

/-- The full universe of `np.dtype` values: the numba-representable numeric
dtypes of `NPDtype`, plus `np.dtype('O')` (the object dtype), a genuine
numpy dtype that `numba.from_dtype` cannot represent. -/
inductive NPDtypeFull
  | numeric (d : NPDtype)
  | objectDtype
deriving DecidableEq, Repr

/-- Embedding of `numba.from_dtype` over the full dtype universe: on a
numba-representable dtype it returns the corresponding scalar type, and on
a dtype numba cannot represent, such as `dtype('O')`, it raises
`NotImplementedError` (here `none`). -/
def from_dtype_full : NPDtypeFull → Option NumbaScalar
  | .numeric d => some (from_dtype d)
  | .objectDtype => none

/-- Host-side values a Python caller could pass to `MultiVectorType(...)`:
a real `np.dtype`, or something else (modelled by a few representatives). -/
inductive PyVal
  | dtypeVal (d : NPDtypeFull)
  | strVal (s : String)
  | intVal (n : Int)
  | noneVal
deriving DecidableEq, Repr

/-- Whether a host value is an `np.dtype`, as tested by
`isinstance(dtype, np.dtype)`. -/
def PyVal.isDtype : PyVal → Bool
  | .dtypeVal _ => true
  | _ => false

/-- Embedding of `MultiVectorType.__init__`: the `assert isinstance(dtype, np.dtype)`
makes construction fail (raise `AssertionError`, here `none`) on any
non-dtype argument; on a dtype, the name format then calls
`numba.from_dtype(dtype)`, which raises `NotImplementedError` for a dtype
numba cannot represent (such as `dtype('O')`), so construction completes
exactly for numba-representable dtypes, storing the given dtype. -/
def MultiVectorType.make : PyVal → Option MultiVectorType
  | .dtypeVal (.numeric d) => some ⟨d⟩
  | _ => none

/-- Opaque host algebra-description object (a `clifford.Layout`). -/
structure HostLayout where
  id : Nat
deriving DecidableEq, Repr, Inhabited

/-- Host numpy coefficient array: an element dtype plus one-dimensional
contents (the numeric carrier is abstracted to `Int`; boxing and unboxing
pass the buffer through unchanged, so only identity of contents matters). -/
structure HostArray where
  dtype : NPDtype
  data : List Int
deriving DecidableEq, Repr

instance : Inhabited HostArray := ⟨⟨NPDtype.float64, []⟩⟩

/-- Modelled from the spec: the host `clifford.MultiVector` class (defined
in `clifford/_multivector.py`, outside this fragment) is "an
algebra-description reference plus a coefficient array". -/
structure MultiVector where
  layout : HostLayout
  value : HostArray
deriving DecidableEq, Repr

/-- Modelled from the spec: the host `MultiVector(layout, value)`
constructor stores its two arguments as the `layout` and `value`
attributes of the new host object. -/
def MultiVector.construct (layout : HostLayout) (value : HostArray) : MultiVector :=
  ⟨layout, value⟩

/-- Embedding of `_typeof_MultiVector`: the compiled type assigned to a
host multivector is `MultiVectorType(dtype=val.value.dtype)`. -/
def _typeof_MultiVector (val : MultiVector) : MultiVectorType :=
  ⟨val.value.dtype⟩

/-- Embedding of `MultiVectorModel.__init__`: the members list handed to
`StructModel` for a given frontend type. -/
def MultiVectorModel.members (fe_type : MultiVectorType) : List (String × NumbaType) :=
  [("layout", fe_type.layout_type), ("value", fe_type.value_type)]

/-- Embedding of the typer returned by `type_MultiVector`: a result type
only when the first argument is the opaque layout type and the second is
an array type; implicitly `None` (no result) otherwise. -/
def type_MultiVector (layout value : NumbaType) : Option MultiVectorType :=
  match layout, value with
  | NumbaType.layout, NumbaType.array e _ => some ⟨as_dtype e⟩
  | _, _ => none

/-- The in-memory struct value of a compiled multivector: exactly the two
members registered by `MultiVectorModel`. -/
structure MVStruct where
  layout : HostLayout
  value : HostArray
deriving DecidableEq, Repr

instance : Inhabited MVStruct := ⟨⟨default, default⟩⟩

/-- Embedding of `impl_MultiVector`, the constructor lowering: build a
struct proxy, assign `mv.layout = layout` and `mv.value = value` from the
two arguments, and return the resulting (borrowed) struct value. -/
def impl_MultiVector (layout : HostLayout) (value : HostArray) : MVStruct :=
  { layout := layout, value := value }

/-- Host object as seen through `object_getattr_string`: each attribute
fetch either yields a value or fails (NULL plus a raised host error),
modelled by `Option`. A genuine host `MultiVector` has both attributes. -/
structure PyMVObject where
  value : Option HostArray
  layout : Option HostLayout
deriving DecidableEq, Repr

/-- Attribute view of a genuine host `MultiVector`: both fetches succeed. -/
def MultiVector.toPyObject (mv : MultiVector) : PyMVObject :=
  ⟨some mv.value, some mv.layout⟩

/-- Embedding of `numba.extending.NativeValue` for this struct type. -/
structure NativeValue where
  value : MVStruct
  is_error : Bool
deriving DecidableEq, Repr

/-- Modelled from the spec: unboxing of the opaque layout reference
(`LayoutType` unboxing lives in `clifford/numba/_layout.py`, outside this
fragment). The spec treats the reference as a single opaque capability,
so the host reference passes through unchanged and conversion itself
raises no host error. -/
def unbox_Layout (obj : Option HostLayout) : Option HostLayout :=
  obj

/-- Modelled from the spec: boxing of the opaque layout reference returns
the same host algebra-description object the struct holds. -/
def box_Layout (l : HostLayout) : HostLayout :=
  l

/-- Framework unboxing of a numpy array at type `t`: succeeds exactly when
a non-NULL host array of the matching element type is given for the
one-dimensional array type; the buffer passes through unchanged. -/
def unbox_Array (t : NumbaType) (obj : Option HostArray) : Option HostArray :=
  match t, obj with
  | NumbaType.array e 1, some a => if from_dtype a.dtype = e then some a else none
  | _, _ => none

/-- Framework boxing of a native array: the same buffer as a host array. -/
def box_Array (a : HostArray) : HostArray :=
  a

/-- Embedding of `unbox_MultiVector`: fetch the `value` and `layout`
attributes, unbox each into the struct fields, and report in `is_error`
whether any host error occurred (`err_occurred` is non-null exactly when
an attribute fetch or a conversion failed). On error the struct fields
hold unspecified values, embedded as defaults. -/
def unbox_MultiVector (typ : MultiVectorType) (obj : PyMVObject) : NativeValue :=
  let value := obj.value
  let layout := obj.layout
  let layoutNative := unbox_Layout layout
  let valueNative := unbox_Array typ.value_type value
  let err := value.isNone || layout.isNone || layoutNative.isNone || valueNative.isNone
  { value := { layout := layoutNative.getD default, value := valueNative.getD default }
    is_error := err }

/-- Embedding of `box_MultiVector`: box the `value` field, box the
`layout` field, and call the host `MultiVector` class with the boxed
layout as first argument and the boxed array as second argument. -/
def box_MultiVector (_typ : MultiVectorType) (val : MVStruct) : MultiVector :=
  let mv_obj := box_Array val.value
  let layout_obj := box_Layout val.layout
  MultiVector.construct layout_obj mv_obj

/-- Result of an attribute read on the compiled struct. -/
inductive AttrVal
  | layoutAttr (l : HostLayout)
  | valueAttr (a : HostArray)
deriving DecidableEq, Repr

/-- Embedding of the two `make_attribute_wrapper` registrations: attribute
resolution on a compiled multivector struct. `.value` and `.layout` read
the corresponding struct fields; every other attribute is unresolved. -/
def mvStructGetattr (s : MVStruct) (attr : String) : Option AttrVal :=
  if attr = "value" then some (AttrVal.valueAttr s.value)
  else if attr = "layout" then some (AttrVal.layoutAttr s.layout)
  else none

/-- C1: unboxing a host multivector at its assigned compiled type and boxing
the resulting struct back yields a host `MultiVector` with no error flag,
the same algebra-description object, and a coefficient array of the same
element type and the same contents. -/
theorem unbox_box_roundtrip (mv : MultiVector) :
    (unbox_MultiVector (_typeof_MultiVector mv) mv.toPyObject).is_error = false ∧
    (box_MultiVector (_typeof_MultiVector mv)
      (unbox_MultiVector (_typeof_MultiVector mv) mv.toPyObject).value).layout = mv.layout ∧
    (box_MultiVector (_typeof_MultiVector mv)
      (unbox_MultiVector (_typeof_MultiVector mv) mv.toPyObject).value).value.dtype
        = mv.value.dtype ∧
    (box_MultiVector (_typeof_MultiVector mv)
      (unbox_MultiVector (_typeof_MultiVector mv) mv.toPyObject).value).value.data
        = mv.value.data := by
  simp [unbox_MultiVector, box_MultiVector, _typeof_MultiVector, MultiVector.toPyObject,
    unbox_Array, unbox_Layout, box_Array, box_Layout, MultiVectorType.value_type,
    MultiVector.construct]

/-- C2: the struct model registered for a compiled multivector has exactly
two members, the opaque layout reference and the one-dimensional coefficient
array, and both member types are derived from the frontend type's dtype. -/
theorem model_struct_two_fields (t : MultiVectorType) :
    MultiVectorModel.members t =
      [("layout", NumbaType.layout), ("value", NumbaType.array (from_dtype t.dtype) 1)] ∧
    (MultiVectorModel.members t).length = 2 := by
  simp [MultiVectorModel.members, MultiVectorType.layout_type, MultiVectorType.value_type]

/-- C3: the identity key of a `MultiVectorType` is exactly the dtype stored
at construction, so two instances denote the same compiled type if and only
if their dtypes are equal. -/
theorem type_key_is_dtype (d : NPDtype) (a b : MultiVectorType) :
    (MultiVectorType.mk d).key = d ∧
    ((MultiVectorType.mk d).dtype = d) ∧
    (a.teq b = true ↔ a.dtype = b.dtype) := by
  refine ⟨rfl, rfl, ?_⟩
  simp [MultiVectorType.teq, MultiVectorType.key]

/-- C4: the algebra-description reference has the same compiled type for
every dtype specialization, and the compiled type assigned to a host
multivector depends only on its coefficient array's dtype, never on its
layout. -/
theorem layout_opaque_typeof_by_dtype (d1 d2 : NPDtype) (mv : MultiVector)
    (l1 l2 : HostLayout) (a : HostArray) :
    (MultiVectorType.mk d1).layout_type = (MultiVectorType.mk d2).layout_type ∧
    _typeof_MultiVector mv = MultiVectorType.mk mv.value.dtype ∧
    _typeof_MultiVector ⟨l1, a⟩ = _typeof_MultiVector ⟨l2, a⟩ :=
  ⟨rfl, rfl, rfl⟩

/-- C5: the constructor lowering produces a struct whose layout field is
exactly the layout argument and whose value field is exactly the array
argument, and nothing else. -/
theorem impl_MultiVector_fields (l : HostLayout) (v : HostArray) :
    impl_MultiVector l v = { layout := l, value := v } ∧
    (impl_MultiVector l v).layout = l ∧
    (impl_MultiVector l v).value = v :=
  ⟨rfl, rfl, rfl⟩

/-- C6: boxing a compiled multivector calls the host `MultiVector`
constructor with the boxed layout field as first argument and the boxed
coefficient array field as second argument, so the result carries exactly
the struct's two fields. -/
theorem box_MultiVector_constructs_host (typ : MultiVectorType) (s : MVStruct) :
    box_MultiVector typ s = MultiVector.construct (box_Layout s.layout) (box_Array s.value) ∧
    (box_MultiVector typ s).layout = s.layout ∧
    (box_MultiVector typ s).value = s.value :=
  ⟨rfl, rfl, rfl⟩

/-- C7: the in-compiled-code constructor `MultiVector(layout, value)` is
typed exactly when the first argument is the layout type and the second an
array type, in which case the result type carries the array's dtype; any
other pair of argument types produces no result type. -/
theorem type_MultiVector_typer (l v : NumbaType) (e0 : NumbaScalar) (n0 : Nat) :
    type_MultiVector NumbaType.layout (NumbaType.array e0 n0) = some ⟨as_dtype e0⟩ ∧
    ((type_MultiVector l v).isSome = true ↔
      l = NumbaType.layout ∧ ∃ e n, v = NumbaType.array e n) := by
  constructor
  · rfl
  · cases l <;> cases v <;> simp [type_MultiVector]

/-- C8: the `NativeValue` returned by unboxing has `is_error` set if and
only if a host error occurred while fetching or converting the object's
`value` or `layout` attributes; in particular an object lacking either
attribute yields an error result. -/
theorem unbox_is_error_iff (typ : MultiVectorType) (obj : PyMVObject)
    (a : HostArray) (l : HostLayout) :
    ((unbox_MultiVector typ obj).is_error = true ↔
      (obj.value = none ∨ obj.layout = none ∨
        unbox_Array typ.value_type obj.value = none)) ∧
    (unbox_MultiVector typ ⟨none, some l⟩).is_error = true ∧
    (unbox_MultiVector typ ⟨some a, none⟩).is_error = true := by
  refine ⟨?_, ?_, ?_⟩ <;>
    simp [unbox_MultiVector, unbox_Layout, unbox_Array, Option.isNone_iff_eq_none, or_assoc]

/-- C9: compiled code can read `.value` and `.layout` of a compiled
multivector, each read returning exactly the corresponding stored struct
field, and no other attribute of the compiled type resolves. -/
theorem attribute_wrapper_reads (s : MVStruct) (attr : String) :
    mvStructGetattr s "value" = some (AttrVal.valueAttr s.value) ∧
    mvStructGetattr s "layout" = some (AttrVal.layoutAttr s.layout) ∧
    ((mvStructGetattr s attr).isSome = true ↔ attr = "value" ∨ attr = "layout") := by
  refine ⟨rfl, rfl, ?_⟩
  by_cases h1 : attr = "value" <;> by_cases h2 : attr = "layout" <;>
    simp [mvStructGetattr, h1, h2]

/-- C10 counterexample: `np.dtype('O')` is a genuine numpy dtype, so the
`isinstance(dtype, np.dtype)` assertion passes, yet constructing a
`MultiVectorType` from it produces no type: `numba.from_dtype` raises
`NotImplementedError` inside the name formatting, refuting the claim that
construction succeeds for every numpy dtype. -/
theorem make_object_dtype_fails :
    (PyVal.dtypeVal NPDtypeFull.objectDtype).isDtype = true ∧
    MultiVectorType.make (PyVal.dtypeVal NPDtypeFull.objectDtype) = none :=
  ⟨rfl, rfl⟩

/-- C10 (amended): constructing a `MultiVectorType` requires a numpy dtype
argument — any non-dtype argument fails the `isinstance` assertion — and
succeeds exactly on the dtypes `numba.from_dtype` can represent, in which
case the type is named `MultiVector[...]` after that dtype; on a numpy
dtype numba cannot represent, `numba.from_dtype` raises in the name
formatting and no type is produced. -/
theorem make_requires_representable_dtype (d : NPDtype) (dd : NPDtypeFull) (v : PyVal) :
    MultiVectorType.make (PyVal.dtypeVal (NPDtypeFull.numeric d)) = some ⟨d⟩ ∧
    (MultiVectorType.mk d).name = "MultiVector[" ++ (from_dtype d).pyrepr ++ "]" ∧
    (MultiVectorType.make (PyVal.dtypeVal dd)).isSome = (from_dtype_full dd).isSome ∧
    ((MultiVectorType.make v).isSome = true ↔
      ∃ d0, v = PyVal.dtypeVal (NPDtypeFull.numeric d0)) := by
  refine ⟨rfl, rfl, ?_, ?_⟩
  · cases dd <;> rfl
  · cases v with
    | dtypeVal dd0 => cases dd0 <;> simp [MultiVectorType.make]
    | strVal s => simp [MultiVectorType.make]
    | intVal n => simp [MultiVectorType.make]
    | noneVal => simp [MultiVectorType.make]

end CliffordNumba
